import Mathlib

/-!
Verification of the watcher polling and lifecycle engine of the
game-autostop-manager repository.

Shallow embedding of:
- `src/providers/satisfactory.js` (token-HTTPS occupancy provider)
- `src/watcher-polling.js` (tickOne / startWatcher / stopWatcher)
- `src/storage.js` (loadConfig / saveConfig)
- `src/manager.js` (validate / create / update / remove)

JavaScript numbers are modelled as rationals (`ℚ`); player counts as
integers (`ℤ`); JS objects whose keys may be absent as `Option` fields;
fallible code as `Except`.  Asynchronous I/O outcomes (dockerode calls,
axios calls, Gamedig queries) are supplied by explicit environment
records, so one embedded tick is a pure function of its environment.
-/

namespace AutoStop

/-- Durable watcher configuration (`WatcherConfig`), as produced by
`validate` in `src/manager.js`: required fields are present, optional
protocol-specific endpoint fields stay optional. -/
structure Watcher where
  id : String
  name : String
  targetContainer : String
  gamedigType : String
  queryHost : Option String := none
  queryPort : Option ℚ := none
  host : Option String := none
  port : Option ℚ := none
  apiToken : Option String := none
  adminPassword : Option String := none
  inactivityMinutes : ℚ
  checkIntervalSec : ℚ
  stopTimeoutSec : ℚ
  autostart : Bool
deriving Repr, DecidableEq

/-- In-memory runtime scheduling state (`WatcherRuntimeState`), one per
currently scheduled watcher.  The `timer` handle of the source is an
opaque OS resource and is not part of the value model. -/
structure RtState where
  intervalSec : ℚ
  emptyMinutes : ℚ
  lastPlayers : ℤ
  busy : Bool
deriving Repr, DecidableEq

/-- One structured event per `emit` site of the source; `Ev.kind` recovers
the `type` field (`info` / `warn` / `error`) of the emitted object. -/
inductive Ev where
  | containerNotFound (name target : String)
  | ipNotResolved (name target : String)
  | playersInfo (name : String) (players : ℤ)
  | stoppingInfo (name : String)
  | stopError (msg : String)
  | queryUnavailable (name : String)
  | watcherStarted (name : String) (intervalSec : ℚ)
deriving Repr, DecidableEq

/-- The `type` field of the emitted event object. -/
def Ev.kind : Ev → String
  | .containerNotFound _ _ => "warn"
  | .ipNotResolved _ _ => "warn"
  | .playersInfo _ _ => "info"
  | .stoppingInfo _ => "info"
  | .stopError _ => "error"
  | .queryUnavailable _ => "warn"
  | .watcherStarted _ _ => "info"

/-- The runtime table `this.watchers` (a JS `Map` keyed by watcher id). -/
abbrev Table := List (String × RtState)

/-- `watchers.get(id)`. -/
def lookupT (t : Table) (id : String) : Option RtState :=
  (t.find? (fun p => p.1 == id)).map (fun p => p.2)

/-- `watchers.set(id, st)`: replaces the entry in place when the key is
present, appends otherwise (JS `Map` insertion-order semantics). -/
def setT (t : Table) (id : String) (st : RtState) : Table :=
  if t.any (fun p => p.1 == id) then
    t.map (fun p => if p.1 == id then (id, st) else p)
  else
    t ++ [(id, st)]

/-- `watchers.delete(id)`. -/
def delT (t : Table) (id : String) : Table :=
  t.filter (fun p => p.1 != id)

/-! ## Token-HTTPS provider (`src/providers/satisfactory.js`) -/

/-- The nested `serverGameState` object of a `QueryServerState` response. -/
structure SGS where
  isGameRunning : Option Bool
  numConnectedPlayers : Option ℤ
deriving Repr, DecidableEq

/-- The `data.data` object of a `QueryServerState` response (`d` in the
source); absent keys are `none`.  Player-list fields only matter through
their lengths. -/
structure SatResponse where
  serverGameState : Option SGS
  serverStateUpper : Option String
  serverStateLower : Option String
  connectedPlayersUpper : Option ℕ
  connectedPlayersLower : Option ℕ
  playerCountUpper : Option ℤ
  playerCountLower : Option ℤ
deriving Repr, DecidableEq

/-- Outcomes of the network calls one `pollSatisfactory` invocation can
make, plus the ambient environment token.  `Except.error ()` models an
axios rejection (connection error, TLS error, timeout, non-2xx). -/
structure SatNet where
  loginResp : Except Unit (Option String)
  queryResp : Except Unit SatResponse
  envToken : Option String
  resolvedIP : Option String
  dockerPresent : Bool
deriving Repr

/-- JS truthiness for an optional string (`undefined` and `""` are falsy). -/
def truthyStr : Option String → Bool
  | none => false
  | some s => s != ""

/-- `a || b` on optional strings. -/
def orStr (a b : Option String) : Option String :=
  if truthyStr a then a else b

/-- `passwordLogin` of `src/providers/satisfactory.js`: returns `none`
when no admin password is configured, when the axios call rejects, or
when the response carries no truthy `AuthenticationToken`. -/
def passwordLogin (adminPassword : Option String) (net : SatNet) : Option String :=
  if !truthyStr adminPassword then none
  else
    match net.loginResp with
    | Except.error _ => none
    | Except.ok tok => if truthyStr tok then tok else none

/-- `/^\d+\./` of the source: host already looks like a dotted address. -/
def looksLikeAddress (s : String) : Bool :=
  let ds := s.takeWhile Char.isDigit
  decide (0 < ds.length) && (s.drop ds.length).startsWith "."

/-- Player-count derivation of `queryServerState` (lines 100-112): the
four historically observed response shapes, in source order, with
fallback 0. -/
def satPlayers (d : SatResponse) : ℤ :=
  match d.serverGameState.bind (fun g => g.numConnectedPlayers) with
  | some n => n
  | none =>
    match d.connectedPlayersUpper with
    | some len => (len : ℤ)
    | none =>
      match d.connectedPlayersLower with
      | some len => (len : ℤ)
      | none =>
        match d.playerCountUpper with
        | some n => n
        | none =>
          match d.playerCountLower with
          | some n => n
          | none => 0

/-- State derivation of `queryServerState` (lines 91-97). -/
def satState (d : SatResponse) : String :=
  if ((d.serverGameState.bind (fun g => g.isGameRunning)).getD false) then
    "playing"
  else
    ((orStr d.serverStateUpper (orStr d.serverStateLower (some "offline"))).getD "offline").toLower

/-- `queryServerState`: propagates an axios rejection to the caller,
otherwise derives `{ state, players }` from the response body. -/
def queryServerState (net : SatNet) : Except Unit (String × ℤ) :=
  match net.queryResp with
  | Except.error e => Except.error e
  | Except.ok d => Except.ok (satState d, satPlayers d)

/-- The result shape of `pollSatisfactory`. -/
structure SatPoll where
  available : Bool
  players : ℤ
deriving Repr, DecidableEq

/-- Body of the `try` block of `pollSatisfactory` (lines 137-170): host
resolution (inert for the outcome, the network oracle already fixes the
call results), token selection, legacy password login, then the state
query; any rejection escapes to the surrounding `catch`. -/
def pollSatisfactoryBody (w : Watcher) (net : SatNet) : Except Unit SatPoll :=
  let host0 := w.host.getD ""
  let _host :=
    if net.dockerPresent && truthyStr w.host && !looksLikeAddress host0 then
      match net.resolvedIP with
      | some ip => ip
      | none => host0
    else host0
  let token0 := orStr w.apiToken net.envToken
  let _token :=
    if !truthyStr token0 && truthyStr w.adminPassword then
      passwordLogin w.adminPassword net
    else token0
  match queryServerState net with
  | Except.error e => Except.error e
  | Except.ok sp => Except.ok ⟨sp.1 == "playing", sp.2⟩

/-- `pollSatisfactory`: total wrapper; the `catch` translates every
escaped failure into `{ available: false, players: 0 }`. -/
def pollSatisfactory (w : Watcher) (net : SatNet) : SatPoll :=
  match pollSatisfactoryBody w net with
  | Except.ok r => r
  | Except.error _ => ⟨false, 0⟩

/-! ## The single-poll algorithm (`tickOne` of `src/watcher-polling.js`) -/

/-- A Gamedig status response: `players` (a list, kept as its length) and
`numplayers`, either of which may be absent. -/
structure GamedigResult where
  playersLen : Option ℕ
  numplayers : Option ℤ
deriving Repr, DecidableEq

/-- Count derivation of lines 86-90: the `players` array length if it is
an array, else a numeric `numplayers`, else 0. -/
def gamedigPlayers (r : GamedigResult) : ℤ :=
  match r.playersLen with
  | some n => (n : ℤ)
  | none =>
    match r.numplayers with
    | some m => m
    | none => 0

/-- Outcomes of the asynchronous calls one tick can make.
`inspectRunning` is the `container.inspect()` outcome (the catch of lines
50-52 maps a rejection to not-running); `resolvedIP` the IP-cache lookup
(`resolveContainerIPWithCache` never rejects); `gamedig` the
`Gamedig.query` outcome; `sat` the token-HTTPS provider outcomes;
`stopErr` is `some msg` when `container.stop` rejects with `msg`. -/
structure TickEnv where
  containerPresent : Bool
  inspectRunning : Except Unit Bool
  resolvedIP : Option String
  gamedig : Except Unit GamedigResult
  sat : SatNet
  stopErr : Option String
deriving Repr

/-- `isContainerRunning` after lines 46-52: inspection failure is
fail-closed to `false`. -/
def isContainerRunning (env : TickEnv) : Bool :=
  match env.inspectRunning with
  | Except.ok b => b
  | Except.error _ => false

/-- Result of the occupancy-query section of the `try` block (lines
64-91): `ipFail` is the early return when no IP resolves (Gamedig path),
`threw` a rejected `Gamedig.query`, `got n` a count that reached line 94.
The Satisfactory branch always produces `got` because `pollSatisfactory`
never rejects. -/
inductive QueryStep where
  | ipFail
  | threw
  | got (players : ℤ)
deriving Repr, DecidableEq

/-- The occupancy-query section of `tickOne` (lines 64-91). -/
def queryStep (w : Watcher) (env : TickEnv) : QueryStep :=
  if w.gamedigType == "satisfactory" then
    QueryStep.got (pollSatisfactory w env.sat).players
  else
    match env.resolvedIP with
    | none => QueryStep.ipFail
    | some _ =>
      match env.gamedig with
      | Except.error _ => QueryStep.threw
      | Except.ok r => QueryStep.got (gamedigPlayers r)

/-- Everything one `tickOne` call did: the final value of the runtime
state object it grabbed via `watchers.get` (`none` when the grab found
nothing), the events it emitted, the number of `container.stop`
invocations, and the number of occupancy queries issued. -/
structure TickOut where
  state : Option RtState
  events : List Ev
  stops : ℕ
  queries : ℕ
deriving Repr, DecidableEq

/-- `stopGracefully` of `src/docker.js`: a rejected `container.stop` is
caught and reported as an error event, never rethrown. -/
def stopGracefullyEvents (env : TickEnv) : List Ev :=
  match env.stopErr with
  | none => []
  | some m => [Ev.stopError m]

/-- `tickOne` of `src/watcher-polling.js` (lines 31-115).

`grabbed` is the result of `watchers.get(watcher.id)` at line 54: `some`
the current runtime-state object, or `none` when the runtime entry was
evicted (by `stopWatcher`) before this in-flight tick reached the lookup.
With `grabbed = none`:
- the not-running branch assigns `state.emptyMinutes` on `undefined`
  outside any `try`, raising a `TypeError` out of the function;
- inside the `try`, the first state access (`players !== state.lastPlayers`,
  line 94) raises after the query, and the `catch` absorbs it as a
  query failure (warning, no stop). -/
def tickOne (w : Watcher) (env : TickEnv) (grabbed : Option RtState) :
    Except String TickOut :=
  if !env.containerPresent then
    Except.ok ⟨grabbed, [Ev.containerNotFound w.name w.targetContainer], 0, 0⟩
  else if !isContainerRunning env then
    match grabbed with
    | none => Except.error "TypeError: Cannot set properties of undefined"
    | some st =>
      Except.ok ⟨some { st with emptyMinutes := 0, lastPlayers := -1 }, [], 0, 0⟩
  else
    match queryStep w env with
    | QueryStep.ipFail =>
      Except.ok ⟨grabbed, [Ev.ipNotResolved w.name w.targetContainer], 0, 0⟩
    | QueryStep.threw =>
      Except.ok ⟨grabbed, [Ev.queryUnavailable w.name], 0, 1⟩
    | QueryStep.got players =>
      match grabbed with
      | none =>
        Except.ok ⟨none, [Ev.queryUnavailable w.name], 0, 1⟩
      | some st =>
        let evs1 : List Ev :=
          if players != st.lastPlayers then [Ev.playersInfo w.name players] else []
        let st1 : RtState :=
          if players != st.lastPlayers then { st with lastPlayers := players } else st
        if players == 0 then
          let em := st1.emptyMinutes + st1.intervalSec / 60
          if w.inactivityMinutes ≤ em then
            Except.ok ⟨some { st1 with emptyMinutes := 0, lastPlayers := -1 },
              evs1 ++ [Ev.stoppingInfo w.name] ++ stopGracefullyEvents env, 1, 1⟩
          else
            Except.ok ⟨some { st1 with emptyMinutes := em }, evs1, 0, 1⟩
        else
          Except.ok ⟨some { st1 with emptyMinutes := 0 }, evs1, 0, 1⟩

/-! ## Lifecycle (`startWatcher` / `stopWatcher` of `src/watcher-polling.js`) -/

/-- What one `startWatcher` call did: final runtime table, events
emitted, and effect counters of the immediate first tick. -/
structure StartOut where
  table : Table
  events : List Ev
  stops : ℕ
  queries : ℕ
deriving Repr, DecidableEq

/-- `startWatcher` (lines 132-181): no-op when the id already has a
runtime entry; otherwise inserts a fresh state, emits the started event
and runs one tick immediately.  The `run` closure toggles `busy` around
the tick on the very state object stored in the table, so the table ends
up holding the post-tick state with `busy = false`.  A tick whose grab is
`some` never raises, so the `Except.error` branch is unreachable; it is
kept for totality, mirroring the absence of a `catch` around `run()`. -/
def startWatcher (w : Watcher) (table : Table) (env : TickEnv) : StartOut :=
  if (lookupT table w.id).isSome then
    ⟨table, [], 0, 0⟩
  else
    let intervalSec := w.checkIntervalSec
    let st0 : RtState := ⟨intervalSec, 0, -1, false⟩
    let table1 := setT table w.id st0
    let started := Ev.watcherStarted w.name intervalSec
    match tickOne w env (some { st0 with busy := true }) with
    | Except.ok out =>
      let stF := { (out.state.getD { st0 with busy := true }) with busy := false }
      ⟨setT table1 w.id stF, started :: out.events, out.stops, out.queries⟩
    | Except.error _ =>
      ⟨setT table1 w.id { st0 with busy := false }, [started], 0, 0⟩

/-- `stopWatcher` (lines 190-197): no-op when not scheduled, otherwise
cancels the timer and removes the runtime entry. -/
def stopWatcher (id : String) (table : Table) : Table :=
  match lookupT table id with
  | none => table
  | some _ => delT table id

/-- One scheduled invocation of the `run` closure over an in-table state:
grabs the entry, ticks, and keeps the post-tick state (with the transient
`busy` toggle elided: ticks here run to completion, exactly the
non-overlapping case `busy` guards).  The fallback branches are
unreachable for a `some` grab. -/
def tickRun (w : Watcher) (env : TickEnv) (st : RtState) : TickOut :=
  match tickOne w env (some st) with
  | Except.ok out => { out with state := some (out.state.getD st) }
  | Except.error _ => ⟨some st, [], 0, 0⟩

/-- A whole window of sequential, completed ticks. -/
def runTicks (w : Watcher) (st : RtState) (envs : List TickEnv) : TickOut :=
  match envs with
  | [] => ⟨some st, [], 0, 0⟩
  | env :: rest =>
    let a := tickRun w env st
    let b := runTicks w (a.state.getD st) rest
    ⟨b.state, a.events ++ b.events, a.stops + b.stops, a.queries + b.queries⟩

/-! ## Configuration persistence (`src/storage.js`) -/

/-- JSON values, as produced by `JSON.parse`. -/
inductive JVal where
  | null
  | bool (b : Bool)
  | num (q : ℚ)
  | str (s : String)
  | arr (elems : List JVal)
  | obj (fields : List (String × JVal))

/-- Property read on an object field list. -/
def lookupField (fs : List (String × JVal)) (k : String) : Option JVal :=
  (fs.find? (fun p => p.1 == k)).map (fun p => p.2)

/-- Property write: updates an existing key in place, appends a new one
(JS object key-order semantics). -/
def setField (fs : List (String × JVal)) (k : String) (v : JVal) :
    List (String × JVal) :=
  if fs.any (fun p => p.1 == k) then
    fs.map (fun p => if p.1 == k then (k, v) else p)
  else
    fs ++ [(k, v)]

/-- The `for (const w of config.watchers)` loop of `loadConfig`,
sequentially: the first raised `TypeError` escapes, otherwise each
element is replaced by its normalized form. -/
def mapE (f : JVal → Except String JVal) : List JVal → Except String (List JVal)
  | [] => Except.ok []
  | v :: rest =>
    match f v with
    | Except.error e => Except.error e
    | Except.ok v2 => (mapE f rest).map (fun r => v2 :: r)

/-- The autostart-normalization loop body of `loadConfig` (lines 28-32)
for one list element `w`: an object keeps a boolean `autostart` and gains
`autostart = true` otherwise; a non-object element raises a `TypeError`
(reading a property of `null`, or a strict-mode property write on a
primitive). -/
def loadWatcher : JVal → Except String JVal
  | JVal.obj fs =>
    match lookupField fs "autostart" with
    | some (JVal.bool _) => Except.ok (JVal.obj fs)
    | _ => Except.ok (JVal.obj (setField fs "autostart" (JVal.bool true)))
  | _ => Except.error "TypeError"

/-- The `try` body of `loadConfig` after a successful parse (lines
21-34): reads `config.watchers` (a `TypeError` on `null`), replaces a
non-array value by `[]` (a strict-mode `TypeError` on a primitive
config; on an array config the expando property is dropped again by
serialization, leaving the array itself), then normalizes each watcher. -/
def loadBody : JVal → Except String JVal
  | JVal.null => Except.error "TypeError"
  | JVal.bool _ => Except.error "TypeError"
  | JVal.num _ => Except.error "TypeError"
  | JVal.str _ => Except.error "TypeError"
  | JVal.arr elems => Except.ok (JVal.arr elems)
  | JVal.obj fs =>
    let fs1 :=
      match lookupField fs "watchers" with
      | some (JVal.arr _) => fs
      | _ => setField fs "watchers" (JVal.arr [])
    match lookupField fs1 "watchers" with
    | some (JVal.arr ws) =>
      (mapE loadWatcher ws).map
        (fun ws2 => JVal.obj (setField fs1 "watchers" (JVal.arr ws2)))
    | _ => Except.ok (JVal.obj fs1)

/-- The configuration `loadConfig` falls back to. -/
def emptyConfig : JVal := JVal.obj [("watchers", JVal.arr [])]

/-- `loadConfig` of `src/storage.js` (lines 18-39): `parsed = none`
models a missing file or a `JSON.parse` failure; any `TypeError` raised
while normalizing is caught by the same `catch`, yielding the empty
configuration. -/
def loadConfig (parsed : Option JVal) : JVal :=
  match parsed with
  | none => emptyConfig
  | some v =>
    match loadBody v with
    | Except.ok c => c
    | Except.error _ => emptyConfig

/-- The document `saveConfig` (lines 49-65) persists: the atomic
temp-write-then-rename writes exactly `JSON.stringify(config)`, so the
on-disk JSON document equals the in-memory configuration value. -/
def saveConfigDoc (config : JVal) : JVal := config

/-- A well-formed configuration document (spec section 6): an object
whose `watchers` key holds an array of objects. -/
def isObjV : JVal → Bool
  | JVal.obj _ => true
  | _ => false

/-- Decides well-formedness of a configuration document. -/
def wellFormedDoc : JVal → Bool
  | JVal.obj fs =>
    match lookupField fs "watchers" with
    | some (JVal.arr ws) => ws.all isObjV
    | _ => false
  | _ => false

/-- Modelled from the spec claim for the round-trip comparison: one
watcher record with its `autostart` field set to `true` when missing or
not a boolean, untouched otherwise. -/
def specNormWatcher (w : JVal) : JVal :=
  match w with
  | JVal.obj fs =>
    match lookupField fs "autostart" with
    | some (JVal.bool _) => w
    | _ => JVal.obj (setField fs "autostart" (JVal.bool true))
  | _ => w

/-- Modelled from the spec claim for the round-trip comparison: the
document equal to `x` except that every watcher whose `autostart` field
is missing or not a boolean has `autostart` set to `true`. -/
def specNormalizeAutostart (x : JVal) : JVal :=
  match x with
  | JVal.obj fs =>
    match lookupField fs "watchers" with
    | some (JVal.arr ws) =>
      JVal.obj (setField fs "watchers" (JVal.arr (ws.map specNormWatcher)))
    | _ => x
  | _ => x

/-! ## CRUD operations (`src/manager.js`) -/

/-- A request payload (create input or update patch): a JS object whose
keys may each be absent.  A key present with value `undefined` is not
distinguished from an absent key. -/
structure Payload where
  id : Option String := none
  name : Option String := none
  targetContainer : Option String := none
  gamedigType : Option String := none
  queryHost : Option String := none
  queryPort : Option ℚ := none
  host : Option String := none
  port : Option ℚ := none
  apiToken : Option String := none
  adminPassword : Option String := none
  inactivityMinutes : Option ℚ := none
  checkIntervalSec : Option ℚ := none
  stopTimeoutSec : Option ℚ := none
  autostart : Option Bool := none
deriving Repr, DecidableEq

/-- `validate` of `src/manager.js` (lines 101-128).  Every throwing
branch is guarded by `!isUpdate`.  The returned record is
`{ id: input.id ?? nanoid(8), ...defaults, ...input }`: `freshId` stands
for the `nanoid(8)` draw, defaults are overridden by fields present in
the input. -/
def validate (input : Payload) (isUpdate : Bool) (freshId : String) :
    Except String Watcher :=
  if input.name.isNone && !isUpdate then
    Except.error "Missing field: name"
  else if input.targetContainer.isNone && !isUpdate then
    Except.error "Missing field: targetContainer"
  else if input.gamedigType.isNone && !isUpdate then
    Except.error "Missing field: gamedigType"
  else
    let g := input.gamedigType.getD ""
    if g != "" && g != "satisfactory" && input.queryHost.isNone && !isUpdate then
      Except.error "Missing field: queryHost"
    else if g != "" && g != "satisfactory" && input.queryPort.isNone && !isUpdate then
      Except.error "Missing field: queryPort"
    else
      Except.ok
        { id := input.id.getD freshId
          name := input.name.getD ""
          targetContainer := input.targetContainer.getD ""
          gamedigType := g
          queryHost := input.queryHost
          queryPort := input.queryPort
          host := input.host
          port := input.port
          apiToken := input.apiToken
          adminPassword := input.adminPassword
          inactivityMinutes := input.inactivityMinutes.getD 10
          checkIntervalSec := input.checkIntervalSec.getD 60
          stopTimeoutSec := input.stopTimeoutSec.getD 60
          autostart := input.autostart.getD true }

/-- The manager's mutable state touched by CRUD: the persisted watcher
list (`this.config.watchers`), the last document written to disk by
`save()`, and the runtime schedule table. -/
structure MState where
  configWatchers : List Watcher
  disk : Option (List Watcher)
  runtime : Table
deriving Repr, DecidableEq

/-- `this.config.watchers.find(x => x.id === id)`. -/
def findWatcher (ws : List Watcher) (id : String) : Option Watcher :=
  ws.find? (fun w => w.id == id)

/-- `this.config.watchers.findIndex(w => w.id === id)`. -/
def findIndexW : List Watcher → String → Option ℕ
  | [], _ => none
  | w :: rest, id =>
    if w.id == id then some 0 else (findIndexW rest id).map (fun n => n + 1)

/-- `create` of `src/manager.js` (lines 133-145): validate, push, save,
then autostart with errors swallowed.  `startWatcher` looks the id up in
the persisted list again (first match). -/
def create (s : MState) (input : Payload) (freshId : String) (env : TickEnv) :
    MState × Except String Watcher :=
  match validate input false freshId with
  | Except.error e => (s, Except.error e)
  | Except.ok w =>
    let s1 : MState := { s with configWatchers := s.configWatchers ++ [w] }
    let s2 : MState := { s1 with disk := some s1.configWatchers }
    let s3 : MState :=
      if w.autostart then
        match findWatcher s2.configWatchers w.id with
        | some w2 => { s2 with runtime := (startWatcher w2 s2.runtime env).table }
        | none => s2
      else s2
    (s3, Except.ok w)

/-- `{ ...old, ...patch, id }` of `update` (line 158): fields present in
the patch override the stored record; the id is forced back. -/
def mergePatch (old : Watcher) (patch : Payload) (id : String) : Watcher :=
  { id := id
    name := patch.name.getD old.name
    targetContainer := patch.targetContainer.getD old.targetContainer
    gamedigType := patch.gamedigType.getD old.gamedigType
    queryHost := patch.queryHost <|> old.queryHost
    queryPort := patch.queryPort <|> old.queryPort
    host := patch.host <|> old.host
    port := patch.port <|> old.port
    apiToken := patch.apiToken <|> old.apiToken
    adminPassword := patch.adminPassword <|> old.adminPassword
    inactivityMinutes := patch.inactivityMinutes.getD old.inactivityMinutes
    checkIntervalSec := patch.checkIntervalSec.getD old.checkIntervalSec
    stopTimeoutSec := patch.stopTimeoutSec.getD old.stopTimeoutSec
    autostart := patch.autostart.getD old.autostart }

/-- `update` of `src/manager.js` (lines 150-169): find the record,
validate the patch in update mode (which, per the guards of `validate`,
can never throw), replace the record preserving the id, save, then
restart a scheduled watcher or autostart an unscheduled one. -/
def update (s : MState) (id : String) (patch : Payload) (env : TickEnv) :
    MState × Except String Watcher :=
  match findIndexW s.configWatchers id with
  | none => (s, Except.error "Watcher not found")
  | some idx =>
    match validate patch true "" with
    | Except.error e => (s, Except.error e)
    | Except.ok _ =>
      match s.configWatchers.get? idx with
      | none => (s, Except.error "Watcher not found")
      | some old =>
        let w := mergePatch old patch id
        let s1 : MState := { s with configWatchers := s.configWatchers.set idx w }
        let s2 : MState := { s1 with disk := some s1.configWatchers }
        let s3 : MState :=
          if (lookupT s2.runtime id).isSome then
            let r1 := stopWatcher id s2.runtime
            match findWatcher s2.configWatchers id with
            | some w2 => { s2 with runtime := (startWatcher w2 r1 env).table }
            | none => { s2 with runtime := r1 }
          else if w.autostart then
            match findWatcher s2.configWatchers id with
            | some w2 => { s2 with runtime := (startWatcher w2 s2.runtime env).table }
            | none => s2
          else s2
        (s3, Except.ok w)

/-- `remove` of `src/manager.js` (lines 174-178): stop (errors ignored),
filter the record out, save. -/
def remove (s : MState) (id : String) : MState :=
  let s1 : MState := { s with runtime := stopWatcher id s.runtime }
  let s2 : MState := { s1 with configWatchers := s1.configWatchers.filter (fun w => w.id != id) }
  { s2 with disk := some s2.configWatchers }

/-- One CRUD operation on the watcher store. -/
inductive MOp where
  | createOp (input : Payload) (freshId : String) (env : TickEnv)
  | updateOp (id : String) (patch : Payload) (env : TickEnv)
  | removeOp (id : String)

/-- Applies one operation, discarding the result value. -/
def applyOp (s : MState) : MOp → MState
  | MOp.createOp input freshId env => (create s input freshId env).1
  | MOp.updateOp id patch env => (update s id patch env).1
  | MOp.removeOp id => remove s id

/-- Applies a sequence of operations. -/
def applyOps (s : MState) (ops : List MOp) : MState :=
  ops.foldl applyOp s

/-- The persisted id column. -/
def storeIds (s : MState) : List String :=
  s.configWatchers.map (fun w => w.id)

/-- A create whose effective id (payload id, or the generated fresh id)
is not already persisted; other operations are unconstrained. -/
def freshOkB (s : MState) : MOp → Bool
  | MOp.createOp input freshId _ =>
    match validate input false freshId with
    | Except.ok w => !(storeIds s).contains w.id
    | Except.error _ => true
  | _ => true

/-- Every create in the sequence uses an effective id that is fresh at
the point it executes. -/
def freshSeqB (s : MState) : List MOp → Bool
  | [] => true
  | op :: rest => freshOkB s op && freshSeqB (applyOp s op) rest

/-- Recognizes the start announcement event. -/
def isStartedEv : Ev → Bool
  | Ev.watcherStarted _ _ => true
  | _ => false

/-! ## Concrete fixtures -/

/-- A network environment in which every HTTPS call of the token-HTTPS
provider rejects (server down, booting, or timing out). -/
def satNetDown : SatNet :=
  { loginResp := Except.error (), queryResp := Except.error ()
    envToken := none, resolvedIP := none, dockerPresent := false }

/-- A standard-query watcher with the boundary configuration
`checkIntervalSec = 60`, `inactivityMinutes = 1`. -/
def wStd : Watcher :=
  { id := "w1", name := "vrising", targetContainer := "vr"
    gamedigType := "vrising", queryHost := some "10.0.0.5"
    queryPort := some 9876, inactivityMinutes := 1
    checkIntervalSec := 60, stopTimeoutSec := 60, autostart := true }

/-- A token-HTTPS (Satisfactory) watcher with default thresholds. -/
def wSat : Watcher :=
  { id := "s1", name := "satisfactory", targetContainer := "sfc"
    gamedigType := "satisfactory", host := some "sfc", port := some 7777
    inactivityMinutes := 10, checkIntervalSec := 60, stopTimeoutSec := 60
    autostart := true }

/-- Tick environment: target running, Gamedig reports an empty player
list, the stop call succeeds. -/
def envQuery0 : TickEnv :=
  { containerPresent := true, inspectRunning := Except.ok true
    resolvedIP := some "10.0.0.5", gamedig := Except.ok ⟨some 0, none⟩
    sat := satNetDown, stopErr := none }

/-- Tick environment: target running, every occupancy query fails (the
Gamedig query rejects; every HTTPS call of the token provider rejects). -/
def envQueryFail : TickEnv :=
  { containerPresent := true, inspectRunning := Except.ok true
    resolvedIP := some "10.0.0.5", gamedig := Except.error ()
    sat := satNetDown, stopErr := none }

/-- Tick environment: target container resolved but not running. -/
def envNotRunning : TickEnv :=
  { containerPresent := true, inspectRunning := Except.ok false
    resolvedIP := none, gamedig := Except.error ()
    sat := satNetDown, stopErr := none }

/-- Tick environment: target container absent. -/
def envAbsent : TickEnv :=
  { containerPresent := false, inspectRunning := Except.ok false
    resolvedIP := none, gamedig := Except.error ()
    sat := satNetDown, stopErr := none }

/-- A fresh runtime state at a 60-second interval. -/
def fresh60 : RtState := ⟨60, 0, -1, false⟩

/-- Store holding only the satisfactory watcher `wSat` (whose protocol
kind requires no `queryHost` / `queryPort`), saved, nothing scheduled. -/
def sSat : MState := ⟨[wSat], some [wSat], []⟩

/-- Update patch switching the protocol kind to a standard-query game
without supplying `queryHost` / `queryPort`. -/
def patchMC : Payload := { gamedigType := some "minecraft" }

/-- A persisted watcher with id `a` (not autostarted, so CRUD effects
stay in the store). -/
def wA : Watcher :=
  { id := "a", name := "A", targetContainer := "c1"
    gamedigType := "satisfactory", inactivityMinutes := 10
    checkIntervalSec := 60, stopTimeoutSec := 60, autostart := false }

/-- Store holding only `wA`. -/
def sA : MState := ⟨[wA], some [wA], []⟩

/-- Create payload reusing the already-persisted id `a`. -/
def pDup : Payload :=
  { id := some "a", name := some "A2", targetContainer := some "c2"
    gamedigType := some "satisfactory", autostart := some false }

/-! ## Branch equations for `tickOne` -/

theorem tickOne_noContainer (w : Watcher) (env : TickEnv) (g : Option RtState)
    (h : env.containerPresent = false) :
    tickOne w env g =
      Except.ok ⟨g, [Ev.containerNotFound w.name w.targetContainer], 0, 0⟩ := by
  simp [tickOne, h]

theorem tickOne_notRunning (w : Watcher) (env : TickEnv) (st : RtState)
    (h1 : env.containerPresent = true) (h2 : isContainerRunning env = false) :
    tickOne w env (some st) =
      Except.ok ⟨some ⟨st.intervalSec, 0, -1, st.busy⟩, [], 0, 0⟩ := by
  simp [tickOne, h1, h2]

theorem tickOne_ipFail (w : Watcher) (env : TickEnv) (g : Option RtState)
    (h1 : env.containerPresent = true) (h2 : isContainerRunning env = true)
    (hq : queryStep w env = QueryStep.ipFail) :
    tickOne w env g =
      Except.ok ⟨g, [Ev.ipNotResolved w.name w.targetContainer], 0, 0⟩ := by
  simp [tickOne, h1, h2, hq]

theorem tickOne_threw (w : Watcher) (env : TickEnv) (g : Option RtState)
    (h1 : env.containerPresent = true) (h2 : isContainerRunning env = true)
    (hq : queryStep w env = QueryStep.threw) :
    tickOne w env g =
      Except.ok ⟨g, [Ev.queryUnavailable w.name], 0, 1⟩ := by
  simp [tickOne, h1, h2, hq]

theorem tickOne_got_pos (w : Watcher) (env : TickEnv) (st : RtState) (p : ℤ)
    (h1 : env.containerPresent = true) (h2 : isContainerRunning env = true)
    (hq : queryStep w env = QueryStep.got p) (hp : p ≠ 0) :
    tickOne w env (some st) =
      Except.ok ⟨some ⟨st.intervalSec, 0, p, st.busy⟩,
        (if p ≠ st.lastPlayers then [Ev.playersInfo w.name p] else []), 0, 1⟩ := by
  by_cases hlp : p = st.lastPlayers
  · subst hlp
    simp [tickOne, h1, h2, hq, hp]
  · simp [tickOne, h1, h2, hq, hp, hlp]

theorem tickOne_got_zero_stop (w : Watcher) (env : TickEnv) (st : RtState)
    (h1 : env.containerPresent = true) (h2 : isContainerRunning env = true)
    (hq : queryStep w env = QueryStep.got 0)
    (hth : w.inactivityMinutes ≤ st.emptyMinutes + st.intervalSec / 60) :
    tickOne w env (some st) =
      Except.ok ⟨some ⟨st.intervalSec, 0, -1, st.busy⟩,
        (if (0 : ℤ) ≠ st.lastPlayers then [Ev.playersInfo w.name 0] else []) ++
          [Ev.stoppingInfo w.name] ++ stopGracefullyEvents env, 1, 1⟩ := by
  by_cases hlp : (0 : ℤ) = st.lastPlayers <;>
    simp [tickOne, h1, h2, hq, hlp, hth]

theorem tickOne_got_zero_noStop (w : Watcher) (env : TickEnv) (st : RtState)
    (h1 : env.containerPresent = true) (h2 : isContainerRunning env = true)
    (hq : queryStep w env = QueryStep.got 0)
    (hth : st.emptyMinutes + st.intervalSec / 60 < w.inactivityMinutes) :
    tickOne w env (some st) =
      Except.ok ⟨some ⟨st.intervalSec, st.emptyMinutes + st.intervalSec / 60, 0, st.busy⟩,
        (if (0 : ℤ) ≠ st.lastPlayers then [Ev.playersInfo w.name 0] else []), 0, 1⟩ := by
  by_cases hlp : (0 : ℤ) = st.lastPlayers <;>
    simp [tickOne, h1, h2, hq, hlp, not_le.mpr hth]

theorem tickRun_notRunning (w : Watcher) (env : TickEnv) (st : RtState)
    (h1 : env.containerPresent = true) (h2 : isContainerRunning env = false) :
    tickRun w env st = ⟨some ⟨st.intervalSec, 0, -1, st.busy⟩, [], 0, 0⟩ := by
  simp [tickRun, tickOne_notRunning w env st h1 h2]

theorem runTicks_reset (w : Watcher) (envs : List TickEnv) :
    ∀ st : RtState,
      (∀ e ∈ envs, e.containerPresent = true ∧ isContainerRunning e = false) →
      st.emptyMinutes = 0 → st.lastPlayers = -1 →
      runTicks w st envs = ⟨some st, [], 0, 0⟩ := by
  induction envs with
  | nil => intro st _ _ _; rfl
  | cons e rest ih =>
    intro st h h0 h1
    have he := h e (by simp)
    have hst : (⟨st.intervalSec, 0, -1, st.busy⟩ : RtState) = st := by
      cases st
      simp_all
    rw [runTicks, tickRun_notRunning w e st he.1 he.2]
    simp only [hst, Option.getD_some]
    rw [ih st (fun x hx => h x (by simp [hx])) h0 h1]
    rfl

theorem tickRun_state_isSome (w : Watcher) (env : TickEnv) (st : RtState) :
    (tickRun w env st).state.isSome = true := by
  unfold tickRun
  cases tickOne w env (some st) with
  | error e => rfl
  | ok out => rfl

theorem runTicks_state_isSome (w : Watcher) (st : RtState) (envs : List TickEnv) :
    (runTicks w st envs).state.isSome = true := by
  induction envs generalizing st with
  | nil => rfl
  | cons e rest ih => simpa [runTicks] using ih _

theorem tickRun_preserves_lt (w : Watcher) (env : TickEnv) (st : RtState)
    (h0 : 0 < w.inactivityMinutes)
    (h : st.emptyMinutes < w.inactivityMinutes) :
    ((tickRun w env st).state.getD st).emptyMinutes < w.inactivityMinutes := by
  cases h1 : env.containerPresent with
  | false => simpa [tickRun, tickOne_noContainer w env (some st) h1] using h
  | true =>
    cases h2 : isContainerRunning env with
    | false => simpa [tickRun, tickOne_notRunning w env st h1 h2] using h0
    | true =>
      cases hq : queryStep w env with
      | ipFail => simpa [tickRun, tickOne_ipFail w env (some st) h1 h2 hq] using h
      | threw => simpa [tickRun, tickOne_threw w env (some st) h1 h2 hq] using h
      | got p =>
        by_cases hp : p = 0
        · subst hp
          by_cases hth : w.inactivityMinutes ≤ st.emptyMinutes + st.intervalSec / 60
          · simpa [tickRun, tickOne_got_zero_stop w env st h1 h2 hq hth] using h0
          · have hlt := not_le.mp hth
            simpa [tickRun, tickOne_got_zero_noStop w env st h1 h2 hq hlt] using hlt
        · simpa [tickRun, tickOne_got_pos w env st p h1 h2 hq hp] using h0

/-! ## Claim theorems -/

/-- C3: a tick whose resolved target is not running resets
`emptyMinutes` to 0 and `lastObservedCount` to -1 and returns without
issuing an occupancy query or a stop call; over any nonempty window of
such ticks the counter stays pinned at 0 (regardless of its prior
value), with zero queries and zero stops. -/
theorem notRunning_tick_resets_and_skips_query :
    (∀ (w : Watcher) (env : TickEnv) (st : RtState),
      env.containerPresent = true → isContainerRunning env = false →
      tickOne w env (some st) =
        Except.ok ⟨some ⟨st.intervalSec, 0, -1, st.busy⟩, [], 0, 0⟩) ∧
    (∀ (w : Watcher) (st : RtState) (env : TickEnv) (envs : List TickEnv),
      (∀ e ∈ env :: envs, e.containerPresent = true ∧ isContainerRunning e = false) →
      runTicks w st (env :: envs) =
        ⟨some ⟨st.intervalSec, 0, -1, st.busy⟩, [], 0, 0⟩) := by
  refine ⟨fun w env st h1 h2 => tickOne_notRunning w env st h1 h2, ?_⟩
  intro w st env envs h
  have he := h env (by simp)
  rw [runTicks, tickRun_notRunning w env st he.1 he.2]
  simp only [Option.getD_some]
  rw [runTicks_reset w envs ⟨st.intervalSec, 0, -1, st.busy⟩
    (fun x hx => h x (by simp [hx])) rfl rfl]
  rfl

/-- Witness for C3 at a concrete input: from `emptyMinutes = 7`, two
not-running ticks pin the counter at 0 with no query and no stop. -/
theorem notRunning_tick_resets_and_skips_query_witness :
    tickOne wStd envNotRunning (some ⟨60, 7, 3, false⟩) =
      Except.ok ⟨some ⟨60, 0, -1, false⟩, [], 0, 0⟩ ∧
    runTicks wStd ⟨60, 7, 3, false⟩ [envNotRunning, envNotRunning] =
      ⟨some ⟨60, 0, -1, false⟩, [], 0, 0⟩ :=
  ⟨notRunning_tick_resets_and_skips_query.1 wStd envNotRunning ⟨60, 7, 3, false⟩ rfl rfl,
   notRunning_tick_resets_and_skips_query.2 wStd ⟨60, 7, 3, false⟩ envNotRunning
     [envNotRunning] (by decide)⟩

/-- C10: with a positive inactivity threshold, a completed tick leaves
`emptyMinutes` strictly below the threshold whenever it was strictly
below before — the tick that reaches the threshold stops and resets in
the same tick — so along any window of completed ticks from a state
below the threshold (in particular from the fresh state, which starts at
0) the counter never survives a tick at or above the threshold. -/
theorem emptyMinutes_stays_below_threshold :
    ∀ (w : Watcher) (st : RtState) (envs : List TickEnv),
      0 < w.inactivityMinutes → st.emptyMinutes < w.inactivityMinutes →
      ((runTicks w st envs).state.getD st).emptyMinutes < w.inactivityMinutes := by
  intro w st envs
  induction envs generalizing st with
  | nil => intro _ h; simpa [runTicks] using h
  | cons e rest ih =>
    intro h0 h
    obtain ⟨s1, hs1⟩ := Option.isSome_iff_exists.mp (tickRun_state_isSome w e st)
    have hstep : s1.emptyMinutes < w.inactivityMinutes := by
      have hp := tickRun_preserves_lt w e st h0 h
      rw [hs1] at hp
      simpa using hp
    have hrec := ih s1 h0 hstep
    obtain ⟨s2, hs2⟩ := Option.isSome_iff_exists.mp (runTicks_state_isSome w s1 rest)
    rw [hs2] at hrec
    simp only [Option.getD_some] at hrec
    rw [runTicks]
    simp only [hs1, Option.getD_some, hs2]
    exact hrec

/-- Witness for C10 at a concrete input: threshold 10, starting at 9.5
empty minutes, a zero-occupancy tick (reaching 10.5, stopping and
resetting) followed by a failing-query tick ends strictly below 10. -/
theorem emptyMinutes_stays_below_threshold_witness :
    ((runTicks { wStd with inactivityMinutes := 10 } ⟨60, 19/2, 0, false⟩
      [envQuery0, envQueryFail]).state.getD ⟨60, 19/2, 0, false⟩).emptyMinutes <
      ({ wStd with inactivityMinutes := 10 } : Watcher).inactivityMinutes :=
  emptyMinutes_stays_below_threshold { wStd with inactivityMinutes := 10 }
    ⟨60, 19/2, 0, false⟩ [envQuery0, envQueryFail] (by norm_num [wStd]) (by norm_num [wStd])

/-- C1: on a tick that observes a running target and a query returning
count 0, `emptyMinutes` is incremented by exactly
`intervalSec / 60` (fractional accumulation); the graceful stop is
invoked exactly when the incremented value reaches `inactivityMinutes`,
after which `emptyMinutes` resets to 0 and `lastObservedCount` to -1
regardless of the stop outcome (`env.stopErr` is arbitrary).
Boundaries: with `checkIntervalSec = 60`, threshold 1 stops on a single
zero tick; threshold 1.5 does not stop on one zero tick but stops on the
second consecutive one. -/
theorem zero_occupancy_accumulates_and_stops_at_threshold :
    (∀ (w : Watcher) (env : TickEnv) (st : RtState),
      env.containerPresent = true → isContainerRunning env = true →
      queryStep w env = QueryStep.got 0 →
      (w.inactivityMinutes ≤ st.emptyMinutes + st.intervalSec / 60 →
        ∃ evs, tickOne w env (some st) =
          Except.ok ⟨some ⟨st.intervalSec, 0, -1, st.busy⟩, evs, 1, 1⟩) ∧
      (st.emptyMinutes + st.intervalSec / 60 < w.inactivityMinutes →
        ∃ evs, tickOne w env (some st) =
          Except.ok ⟨some ⟨st.intervalSec, st.emptyMinutes + st.intervalSec / 60, 0, st.busy⟩,
            evs, 0, 1⟩)) ∧
    (runTicks { wStd with inactivityMinutes := 1 } fresh60 [envQuery0]).stops = 1 ∧
    (runTicks { wStd with inactivityMinutes := 3/2 } fresh60 [envQuery0]).stops = 0 ∧
    (runTicks { wStd with inactivityMinutes := 3/2 } fresh60 [envQuery0, envQuery0]).stops = 1 := by
  refine ⟨?_, ?_, ?_, ?_⟩
  · intro w env st h1 h2 hq
    exact ⟨fun hth => ⟨_, tickOne_got_zero_stop w env st h1 h2 hq hth⟩,
           fun hth => ⟨_, tickOne_got_zero_noStop w env st h1 h2 hq hth⟩⟩
  · have e1 := tickOne_got_zero_stop { wStd with inactivityMinutes := 1 } envQuery0 fresh60
      rfl rfl rfl (by norm_num [wStd, fresh60])
    simp only [runTicks, tickRun, e1, Option.getD_some]
  · have e1 := tickOne_got_zero_noStop { wStd with inactivityMinutes := 3/2 } envQuery0 fresh60
      rfl rfl rfl (by norm_num [wStd, fresh60])
    simp only [runTicks, tickRun, e1, Option.getD_some]
  · have e1 := tickOne_got_zero_noStop { wStd with inactivityMinutes := 3/2 } envQuery0 fresh60
      rfl rfl rfl (by norm_num [wStd, fresh60])
    have e2 := tickOne_got_zero_stop { wStd with inactivityMinutes := 3/2 } envQuery0
      (⟨fresh60.intervalSec, fresh60.emptyMinutes + fresh60.intervalSec / 60, 0, fresh60.busy⟩ : RtState)
      rfl rfl rfl (by norm_num [wStd, fresh60])
    simp only [runTicks, tickRun, e1, e2, Option.getD_some]

/-- Witness for C1 at a concrete input: threshold 1, interval 60,
fresh state — one zero-occupancy tick stops and resets. -/
theorem zero_occupancy_accumulates_and_stops_at_threshold_witness :
    ∃ evs, tickOne { wStd with inactivityMinutes := 1 } envQuery0 (some fresh60) =
      Except.ok ⟨some ⟨60, 0, -1, false⟩, evs, 1, 1⟩ := by
  have h := (zero_occupancy_accumulates_and_stops_at_threshold.1
    { wStd with inactivityMinutes := 1 } envQuery0 fresh60 rfl rfl rfl).1 (by norm_num [wStd, fresh60])
  exact h

theorem tickOne_some_shape (w : Watcher) (env : TickEnv) (st : RtState) :
    ∃ out, tickOne w env (some st) = Except.ok out ∧ out.state.isSome = true := by
  cases h1 : env.containerPresent with
  | false => exact ⟨_, tickOne_noContainer w env (some st) h1, rfl⟩
  | true =>
    cases h2 : isContainerRunning env with
    | false => exact ⟨_, tickOne_notRunning w env st h1 h2, rfl⟩
    | true =>
      cases hq : queryStep w env with
      | ipFail => exact ⟨_, tickOne_ipFail w env (some st) h1 h2 hq, rfl⟩
      | threw => exact ⟨_, tickOne_threw w env (some st) h1 h2 hq, rfl⟩
      | got p =>
        by_cases hp : p = 0
        · subst hp
          by_cases hth : w.inactivityMinutes ≤ st.emptyMinutes + st.intervalSec / 60
          · exact ⟨_, tickOne_got_zero_stop w env st h1 h2 hq hth, rfl⟩
          · exact ⟨_, tickOne_got_zero_noStop w env st h1 h2 hq (not_le.mp hth), rfl⟩
        · exact ⟨_, tickOne_got_pos w env st p h1 h2 hq hp, rfl⟩

theorem tickOne_some_no_started (w : Watcher) (env : TickEnv) (st : RtState)
    (out : TickOut) (h : tickOne w env (some st) = Except.ok out) :
    ∀ e ∈ out.events, isStartedEv e = false := by
  cases h1 : env.containerPresent with
  | false =>
    rw [tickOne_noContainer w env (some st) h1] at h
    injection h with h2
    subst h2
    simp [isStartedEv]
  | true =>
    cases h2 : isContainerRunning env with
    | false =>
      rw [tickOne_notRunning w env st h1 h2] at h
      injection h with h2
      subst h2
      simp
    | true =>
      cases hq : queryStep w env with
      | ipFail =>
        rw [tickOne_ipFail w env (some st) h1 h2 hq] at h
        injection h with h2
        subst h2
        simp [isStartedEv]
      | threw =>
        rw [tickOne_threw w env (some st) h1 h2 hq] at h
        injection h with h2
        subst h2
        simp [isStartedEv]
      | got p =>
        by_cases hp : p = 0
        · subst hp
          by_cases hth : w.inactivityMinutes ≤ st.emptyMinutes + st.intervalSec / 60
          · rw [tickOne_got_zero_stop w env st h1 h2 hq hth] at h
            injection h with h2
            subst h2
            intro e he
            by_cases hc : (0 : ℤ) ≠ st.lastPlayers <;> cases hse : env.stopErr <;>
              simp [hc, hse, stopGracefullyEvents] at he <;>
              rcases he with rfl | rfl | rfl <;> rfl
          · rw [tickOne_got_zero_noStop w env st h1 h2 hq (not_le.mp hth)] at h
            injection h with h2
            subst h2
            intro e he
            by_cases hc : (0 : ℤ) ≠ st.lastPlayers <;> simp [hc] at he <;> subst he <;> rfl
        · rw [tickOne_got_pos w env st p h1 h2 hq hp] at h
          injection h with h2
          subst h2
          intro e he
          by_cases hc : p ≠ st.lastPlayers <;> simp [hc] at he <;> subst he <;> rfl

/-- C4: `startWatcher` is idempotent: with a runtime entry already
present for the id, a call is a complete no-op (same table, no events,
no stop, no query); consequently two calls in a row starting from an
empty table leave exactly one runtime entry for the id and exactly one
started event, the second call changing nothing. -/
theorem startWatcher_idempotent :
    (∀ (w : Watcher) (table : Table) (env : TickEnv),
      (lookupT table w.id).isSome = true →
      startWatcher w table env = ⟨table, [], 0, 0⟩) ∧
    (∀ (w : Watcher) (env1 env2 : TickEnv),
      startWatcher w (startWatcher w [] env1).table env2 =
        ⟨(startWatcher w [] env1).table, [], 0, 0⟩ ∧
      (startWatcher w [] env1).table.countP (fun p => p.1 == w.id) = 1 ∧
      (startWatcher w [] env1).events.countP (fun e => isStartedEv e) = 1) := by
  have noOp : ∀ (w : Watcher) (table : Table) (env : TickEnv),
      (lookupT table w.id).isSome = true →
      startWatcher w table env = ⟨table, [], 0, 0⟩ := by
    intro w table env h
    simp [startWatcher, h]
  refine ⟨noOp, ?_⟩
  intro w env1 env2
  obtain ⟨out, ho, hsome⟩ :=
    tickOne_some_shape w env1 (⟨w.checkIntervalSec, 0, -1, true⟩ : RtState)
  have htab : (startWatcher w [] env1).table =
      [(w.id, { (out.state.getD ⟨w.checkIntervalSec, 0, -1, true⟩) with busy := false })] := by
    simp [startWatcher, lookupT, setT, ho]
  have hev : (startWatcher w [] env1).events =
      Ev.watcherStarted w.name w.checkIntervalSec :: out.events := by
    simp [startWatcher, lookupT, setT, ho]
  refine ⟨?_, ?_, ?_⟩
  · exact noOp w _ env2 (by simp [htab, lookupT])
  · simp [htab]
  · have hz : out.events.countP (fun e => isStartedEv e) = 0 :=
      List.countP_eq_zero.mpr (by
        intro e he
        simpa using tickOne_some_no_started w env1 _ out ho e he)
    rw [hev, List.countP_cons, hz]
    rfl

/-- Witness for C4 at a concrete input: with an entry already scheduled
for `w1`, a second `startWatcher` call is a complete no-op. -/
theorem startWatcher_idempotent_witness :
    startWatcher wStd [("w1", fresh60)] envAbsent = ⟨[("w1", fresh60)], [], 0, 0⟩ :=
  startWatcher_idempotent.1 wStd [("w1", fresh60)] envAbsent (by decide)

theorem loadWatcher_obj (v : JVal) (h : isObjV v = true) :
    loadWatcher v = Except.ok (specNormWatcher v) := by
  cases v <;> simp_all [isObjV, loadWatcher, specNormWatcher]
  split <;> rfl

theorem mapE_loadWatcher (ws : List JVal) (h : ∀ v ∈ ws, isObjV v = true) :
    mapE loadWatcher ws = Except.ok (ws.map specNormWatcher) := by
  induction ws with
  | nil => rfl
  | cons v rest ih =>
    rw [mapE, loadWatcher_obj v (h v (by simp))]
    rw [ih (fun x hx => h x (by simp [hx]))]
    rfl

/-- C6: configuration persistence round-trips: for a well-formed
document (an object whose `watchers` key holds an array of objects),
saving the result of loading it yields the document itself except that
every watcher whose `autostart` field is missing or not a boolean has
`autostart` set to `true`; loading a missing or malformed file yields
the empty configuration instead of failing. -/
theorem load_save_roundtrip_with_autostart_normalization :
    (∀ x : JVal, wellFormedDoc x = true →
      saveConfigDoc (loadConfig (some x)) = specNormalizeAutostart x) ∧
    loadConfig none = emptyConfig := by
  refine ⟨?_, rfl⟩
  intro x h
  cases x with
  | null => simp [wellFormedDoc] at h
  | bool b => simp [wellFormedDoc] at h
  | num q => simp [wellFormedDoc] at h
  | str s => simp [wellFormedDoc] at h
  | arr elems => simp [wellFormedDoc] at h
  | obj fs =>
    simp only [wellFormedDoc] at h
    cases hl : lookupField fs "watchers" with
    | none => rw [hl] at h; simp at h
    | some v =>
      rw [hl] at h
      cases v with
      | arr ws =>
        have hall : ∀ x ∈ ws, isObjV x = true := by
          simpa [List.all_eq_true] using h
        rw [saveConfigDoc, loadConfig, loadBody, hl]
        simp only [hl]
        rw [mapE_loadWatcher ws hall]
        rw [specNormalizeAutostart, hl]
        rfl
      | null => simp at h
      | bool b => simp at h
      | num q => simp at h
      | str s => simp at h
      | obj fs2 => simp at h

/-- Witness for C6 at a concrete input: a document with one watcher
missing `autostart` and one carrying a non-boolean `autostart` loads and
saves to the same document with both set to `autostart = true`. -/
theorem load_save_roundtrip_with_autostart_normalization_witness :
    saveConfigDoc (loadConfig (some (JVal.obj [("watchers", JVal.arr
      [JVal.obj [("name", JVal.str "a")],
       JVal.obj [("name", JVal.str "b"), ("autostart", JVal.num 1)]])]))) =
    specNormalizeAutostart (JVal.obj [("watchers", JVal.arr
      [JVal.obj [("name", JVal.str "a")],
       JVal.obj [("name", JVal.str "b"), ("autostart", JVal.num 1)]])]) :=
  load_save_roundtrip_with_autostart_normalization.1 _ rfl

/-- C7: the token-HTTPS provider's poll is a total function into
`{ available, players }` (it never raises): when the HTTPS state query
rejects (network, TLS, protocol or timeout failure) — and more generally
whenever any failure escapes the body of its `try` — the `catch`
translates the outcome into `available = false, players = 0` instead of
propagating the exception. -/
theorem pollSatisfactory_never_raises :
    ∀ (w : Watcher) (net : SatNet),
      (net.queryResp = Except.error () → pollSatisfactory w net = ⟨false, 0⟩) ∧
      (∀ e, pollSatisfactoryBody w net = Except.error e →
        pollSatisfactory w net = ⟨false, 0⟩) := by
  intro w net
  constructor
  · intro h
    simp [pollSatisfactory, pollSatisfactoryBody, queryServerState, h]
  · intro e h
    simp [pollSatisfactory, h]

/-- Witness for C7 at a concrete input: a satisfactory endpoint whose
HTTPS calls all reject polls to `available = false, players = 0`. -/
theorem pollSatisfactory_never_raises_witness :
    pollSatisfactory wSat satNetDown = ⟨false, 0⟩ :=
  (pollSatisfactory_never_raises wSat satNetDown).1 rfl

/-- C2: REFUTED ON THE TOKEN-HTTPS PATH.  For a satisfactory-kind
watcher whose occupancy query fails (every HTTPS call rejects, e.g. a
timeout), the tick does not emit a warning and does not leave the state
unchanged: `pollSatisfactory` absorbs the failure into
`{ available: false, players: 0 }`, `tickOne` ignores the `available`
flag and counts the tick as zero occupancy.  From `emptyMinutes = 8`
(threshold 10, interval 60s), one failing tick advances the counter to
9, and three consecutive failing ticks cross the threshold and invoke
one graceful stop — the spurious shutdown the spec explicitly rules
out — with zero warning events. -/
theorem tickOne_satisfactory_query_failure_counts_as_empty :
    tickOne wSat envQueryFail (some ⟨60, 8, 0, false⟩) =
      Except.ok ⟨some ⟨60, 9, 0, false⟩, [], 0, 1⟩ ∧
    runTicks wSat ⟨60, 8, 0, false⟩ [envQueryFail, envQueryFail, envQueryFail] =
      ⟨some ⟨60, 1, 0, false⟩,
        [Ev.stoppingInfo "satisfactory", Ev.playersInfo "satisfactory" 0], 1, 3⟩ := by
  constructor <;>
    norm_num [tickOne, queryStep, pollSatisfactory, pollSatisfactoryBody,
      queryServerState, satState, satPlayers, satNetDown, envQueryFail, wSat,
      isContainerRunning, stopGracefullyEvents, runTicks, tickRun]

/-- C5: REFUTED FOR AN EVICTION THAT PRECEDES THE STATE LOOKUP.  When the
tick grabbed the state object before the eviction, writes to the
detached object are indeed harmless and the tick completes (first
conjunct, `tickOne` touches no table and so cannot re-insert).  But when
`stopWatcher` removes the runtime entry while a tick is in flight and
before the tick reaches `watchers.get(watcher.id)`, and the resolved
target is not running, the tick assigns `state.emptyMinutes` on
`undefined` outside any `try` and raises a `TypeError` instead of
completing as a no-op (second conjunct). -/
theorem tickOne_after_eviction_raises_typeerror :
    tickOne wStd envNotRunning (some ⟨60, 5, 2, true⟩) =
      Except.ok ⟨some ⟨60, 0, -1, true⟩, [], 0, 0⟩ ∧
    tickOne wStd envNotRunning none =
      Except.error "TypeError: Cannot set properties of undefined" := by
  constructor <;> rfl

/-- C8: REFUTED FOR UPDATES.  `validate` in update mode guards every
throwing branch with `!isUpdate`, so no patch is ever rejected; in
particular a patch that switches a satisfactory watcher to a
standard-query kind while the record has no `queryHost`/`queryPort`
(required for that kind) is accepted, the persisted list and the
on-disk configuration are mutated, and a runtime schedule is started —
no validation error occurs. -/
theorem update_performs_no_validation :
    (∀ (patch : Payload) (freshId : String), ∃ w,
      validate patch true freshId = Except.ok w) ∧
    (update sSat "s1" patchMC envAbsent).1.configWatchers =
      [mergePatch wSat patchMC "s1"] ∧
    (update sSat "s1" patchMC envAbsent).1.disk =
      some [mergePatch wSat patchMC "s1"] ∧
    (update sSat "s1" patchMC envAbsent).2 =
      Except.ok (mergePatch wSat patchMC "s1") ∧
    (mergePatch wSat patchMC "s1").gamedigType = "minecraft" ∧
    (mergePatch wSat patchMC "s1").queryHost = none ∧
    (mergePatch wSat patchMC "s1").queryPort = none ∧
    (update sSat "s1" patchMC envAbsent).1.runtime ≠ sSat.runtime := by
  refine ⟨fun patch freshId => ?_, ?_, ?_, rfl, rfl, rfl, rfl, ?_⟩
  · simp only [validate, Bool.not_true, Bool.and_false, if_false]
    exact ⟨_, rfl⟩
  all_goals decide

theorem list_set_same {α : Type _} : ∀ (l : List α) (n : ℕ) (a : α),
    l.get? n = some a → l.set n a = l := by
  intro l
  induction l with
  | nil => intro n a h; cases n <;> simp at h
  | cons x xs ih =>
    intro n a h
    cases n with
    | zero => simp at h; subst h; rfl
    | succ m =>
      simp only [List.get?_cons_succ] at h
      simp [List.set_cons_succ, ih m a h]

theorem findIndexW_get : ∀ (ws : List Watcher) (id : String) (i : ℕ),
    findIndexW ws id = some i → ∃ old, ws.get? i = some old ∧ old.id = id := by
  intro ws
  induction ws with
  | nil => intro id i h; simp [findIndexW] at h
  | cons w rest ih =>
    intro id i h
    rw [findIndexW] at h
    by_cases hw : w.id == id
    · rw [if_pos hw] at h
      injection h with h2
      subst h2
      exact ⟨w, rfl, by simpa using hw⟩
    · rw [if_neg hw] at h
      cases hi : findIndexW rest id with
      | none => rw [hi] at h; simp at h
      | some j =>
        rw [hi] at h
        simp at h
        subst h
        obtain ⟨old, h1, h2⟩ := ih id j hi
        exact ⟨old, by simpa using h1, h2⟩

theorem validate_isUpdate_ok (patch : Payload) (fid : String) :
    ∃ w, validate patch true fid = Except.ok w := by
  simp only [validate, Bool.not_true, Bool.and_false, if_false]
  exact ⟨_, rfl⟩

theorem storeIds_update (s : MState) (id : String) (patch : Payload) (env : TickEnv) :
    storeIds (update s id patch env).1 = storeIds s := by
  unfold update
  cases hf : findIndexW s.configWatchers id with
  | none => rfl
  | some idx =>
    obtain ⟨wv, hv⟩ := validate_isUpdate_ok patch ""
    obtain ⟨old, hg, hid⟩ := findIndexW_get _ _ _ hf
    simp only [hv, hg]
    have hs : (s.configWatchers.set idx (mergePatch old patch id)).map (fun w => w.id) =
        s.configWatchers.map (fun w => w.id) := by
      rw [List.map_set]
      exact list_set_same _ idx _ (by rw [List.get?_map, hg]; simp [mergePatch, hid])
    repeat' split
    all_goals simp [storeIds, hs]

theorem create_validate_err (s : MState) (input : Payload) (fid : String)
    (env : TickEnv) (e : String) (hv : validate input false fid = Except.error e) :
    (create s input fid env).1 = s := by
  simp [create, hv]

theorem storeIds_create_ok (s : MState) (input : Payload) (fid : String)
    (env : TickEnv) (w : Watcher) (hv : validate input false fid = Except.ok w) :
    storeIds (create s input fid env).1 = storeIds s ++ [w.id] := by
  unfold create
  simp only [hv]
  split <;> [skip; simp [storeIds]]
  split <;> simp [storeIds]

theorem nodup_applyOp (s : MState) (op : MOp)
    (h : (storeIds s).Nodup) (hf : freshOkB s op = true) :
    (storeIds (applyOp s op)).Nodup := by
  cases op with
  | createOp input fid env =>
    simp only [applyOp]
    cases hv : validate input false fid with
    | error e => rw [create_validate_err s input fid env e hv]; exact h
    | ok w =>
      rw [storeIds_create_ok s input fid env w hv]
      have hmem : w.id ∉ storeIds s := by
        simp only [freshOkB] at hf
        rw [hv] at hf
        simpa using hf
      simp [List.nodup_append, h, hmem]
  | updateOp id patch env =>
    simp only [applyOp]
    rw [storeIds_update]
    exact h
  | removeOp id =>
    simp only [applyOp, remove]
    have hsub : List.Sublist
        ((s.configWatchers.filter (fun w => w.id != id)).map (fun w => w.id))
        (s.configWatchers.map (fun w => w.id)) :=
      List.Sublist.map _ (List.filter_sublist _)
    exact h.sublist hsub

/-- C9, amended: in every state reachable by sequences of create, update
and remove operations in which each create's effective id (the payload
id if present, else the generated fresh id) is not already persisted at
the moment it executes, no two persisted watcher records share an id.
(`create` itself performs no duplicate check — see the counterexample —
so the freshness side condition on creates is necessary.) -/
theorem ids_unique_under_fresh_creates :
    ∀ (ops : List MOp) (s : MState),
      (storeIds s).Nodup → freshSeqB s ops = true →
      (storeIds (applyOps s ops)).Nodup := by
  intro ops
  induction ops with
  | nil => intro s h _; simpa [applyOps] using h
  | cons op rest ih =>
    intro s h hf
    rw [freshSeqB, Bool.and_eq_true] at hf
    obtain ⟨hf1, hf2⟩ := hf
    have h1 := nodup_applyOp s op h hf1
    have := ih (applyOp s op) h1 hf2
    simpa [applyOps] using this

/-- Witness for the amended C9 at a concrete input: removing `a` and
re-creating it with a fresh effective id keeps the persisted ids
duplicate-free. -/
theorem ids_unique_under_fresh_creates_witness :
    (storeIds (applyOps sA [MOp.removeOp "a", MOp.createOp pDup "f2" envAbsent])).Nodup :=
  ids_unique_under_fresh_creates [MOp.removeOp "a", MOp.createOp pDup "f2" envAbsent]
    sA (by decide) (by decide)

/-- C9, counterexample: `create` performs no duplicate-id check, so a
create payload reusing the persisted id `a` yields a store holding two
records with id `a`. -/
theorem create_duplicate_id_breaks_uniqueness :
    storeIds (create sA pDup "f1" envAbsent).1 = ["a", "a"] ∧
    ¬ (storeIds (create sA pDup "f1" envAbsent).1).Nodup := by
  constructor <;> decide

end AutoStop
